import Mathlib

/-!
Verification of the msmart frame codec and device payload codecs.

Shallow embedding of the Python sources under `src/msmart/`:
bytes are modelled as `List Nat` (each element a byte value 0..255),
Python `None`/dynamic values as an explicit `PyVal` type, fallible
operations as `Option`.  Definitions follow the source files; where a
module of the repository is not present under `src/` the definition is
modelled from the specification and says so in its doc comment.
-/

/-- A dynamically typed Python value as it appears on response objects:
booleans, integers, fractional results of `/`, and `None`. -/
inductive PyVal where
  | pyBool (b : Bool)
  | pyInt (n : Nat)
  | pyRat (q : ℚ)
  | pyNone
  deriving DecidableEq, Repr

/-- Python slice `l[:-n]`: drop the last `n` elements (empty-safe). -/
def pyDropLast (n : Nat) (l : List Nat) : List Nat :=
  l.take (l.length - n)

/-- Big-endian 32-bit integer from the four bytes of `l` starting at `i`,
as `struct.unpack(">I", payload[i:i+4])`. -/
def be32 (l : List Nat) (i : Nat) : Nat :=
  l.getD i 0 * 16777216 + l.getD (i+1) 0 * 65536 + l.getD (i+2) 0 * 256 + l.getD (i+3) 0

/-- Little-endian integer of a byte list, as `int.from_bytes(b, "little")`. -/
def leBytes (l : List Nat) : Nat :=
  l.foldr (fun b acc => b + 256 * acc) 0

/-- Signed interpretation of a single byte, as `struct.unpack("b", data)`. -/
def signedByte (b : Nat) : Int :=
  if b < 128 then (b : Int) else (b : Int) - 256

/-- Source: `msmart/base_command.py` line 50: `Frame.checksum(frame) = (~sum(frame) + 1) & 0xFF`,
the two's complement of the byte sum, reduced modulo 256. -/
def Frame.checksum (frame : List Nat) : Nat :=
  ((-(frame.sum : Int)) % 256).toNat

/-- Source: `msmart/base_command.py` lines 22-47: `Frame.tobytes` builds a 10-byte
header `[0xAA, len(payload) + 10 + 1, device_type, 0, 0, 0, 0, 0, 0, frame_type]`
(protocol version byte 8 is zero), appends the payload, then appends
`Frame.checksum(frame[1:])`. -/
def Frame.tobytes (deviceType frameType : Nat) (payload : List Nat) : List Nat :=
  let frame := [0xAA, payload.length + 10 + 1,
                deviceType, 0, 0, 0, 0, 0, 0, frameType] ++ payload
  frame ++ [Frame.checksum (frame.drop 1)]

/-- Source: `msmart/base_command.py` lines 53-59: `Frame.validate` accepts a frame
exactly when `Frame.checksum(frame[1:-1]) == frame[-1]`; otherwise it raises
`InvalidFrameException`.  It performs no other check. -/
def Frame.validate (frame : List Nat) : Bool :=
  Frame.checksum ((frame.drop 1).dropLast) == frame.getLastD 0

/-- The decode side of the frame codec: validate the frame, then expose the
typed accessors `device_type = frame[2]`, `frame_type = frame[9]` (spec §4.2)
and the payload slice `frame[10:-1]` used by every `Response.__init__` in the
source.  Returns `none` when `Frame.validate` raises. -/
def Frame.decode (frame : List Nat) : Option (Nat × Nat × List Nat) :=
  if Frame.validate frame then
    some (frame.getD 2 0, frame.getD 9 0, (frame.drop 10).dropLast)
  else
    none

/-- Modelled from the spec: one round of the CRC-8 used by Midea
(`msmart/crc8.py` is not under `src/`).  The spec gives polynomial `0x131`
(x^8 + x^5 + x^4 + 1, the Maxim polynomial); its table is the reflected
form, so one bit step shifts right and xors `0x8C` on a set low bit. -/
def crc8Step (crc : Nat) : Nat :=
  if crc % 2 = 1 then (crc / 2) ^^^ 0x8C else crc / 2

/-- Modelled from the spec: fold one byte into the CRC-8 (reflected,
eight bit steps after xoring the byte in). -/
def crc8Update (crc b : Nat) : Nat :=
  crc8Step^[8] ((crc ^^^ b) % 256)

/-- Modelled from the spec: `crc8.calculate` over a byte string, initial
value 0, no final xor (CRC-8/Maxim, the table shipped as Midea's). -/
def crc8Calculate (data : List Nat) : Nat :=
  data.foldl crc8Update 0

/-- Modelled from the spec: the air-conditioner response validator
(`src/msmart/device/AC/command.py` is not under `src/`; only its test is).
Spec §4.2: verify the frame checksum as `Frame.validate` does; if that
fails, re-verify assuming the last byte is a CRC-8 over the payload and
the frame checksum is the byte before it; accept either form. -/
def acResponseValidate (frame : List Nat) : Bool :=
  Frame.validate frame ||
    (Frame.checksum (pyDropLast 2 (frame.drop 1)) == (frame.dropLast).getLastD 0 &&
     crc8Calculate (pyDropLast 2 (frame.drop 10)) == frame.getLastD 0)

/-- Modelled from the spec: `FrameType.QUERY` (`msmart/const.py` is not under
`src/`).  Value 0x03, fixed by the captured query-response frames in the
repository tests, whose byte 9 is 0x03 and which dispatch to the QUERY branch
of `Response.construct` in `src/msmart/device/C3/command.py`. -/
def FrameType.QUERY : Nat := 0x03

/-- Modelled from the spec: `FrameType.REPORT` (`msmart/const.py` is not under
`src/`).  Value 0x04, fixed by the captured POWER4 report frame in the
repository tests, whose byte 9 is 0x04 and which dispatches to the REPORT
branch of `Response.construct` in `src/msmart/device/C3/command.py`. -/
def FrameType.REPORT : Nat := 0x04

/-- Source: `DeviceType.HEAT_PUMP = 0xC3` (spec §3). -/
def DeviceType.HEAT_PUMP : Nat := 0xC3

/-- Source: `DeviceType.AIR_CONDITIONER = 0xAC` (spec §3). -/
def DeviceType.AIR_CONDITIONER : Nat := 0xAC

/-- Source: `DeviceType.COMMERCIAL_AC = 0xCC` (spec §3). -/
def DeviceType.COMMERCIAL_AC : Nat := 0xCC

/-- Source: `msmart/device/C3/command.py` line 35: `QueryType.QUERY_BASIC = 0x1`. -/
def QueryType.QUERY_BASIC : Nat := 0x1

/-- Source: `msmart/device/C3/command.py` line 45: `QueryType.QUERY_UNIT_PARAMETERS = 0x10`. -/
def QueryType.QUERY_UNIT_PARAMETERS : Nat := 0x10

/-- Source: `msmart/device/C3/command.py` line 51: `ReportType.REPORT_POWER4 = 0x4`. -/
def ReportType.REPORT_POWER4 : Nat := 0x4

/-- Source: `msmart/device/C3/command.py` lines 55-73: `QueryBasicCommand().tobytes()`
frames the one-byte payload `[QueryType.QUERY_BASIC]` for device `0xC3`
with frame type QUERY. -/
def QueryBasicCommand.tobytes : List Nat :=
  Frame.tobytes DeviceType.HEAT_PUMP FrameType.QUERY [QueryType.QUERY_BASIC]

/-- Python `bool(b & mask)` as a `PyVal`. -/
def bitBool (b m : Nat) : PyVal := PyVal.pyBool ((b &&& m) != 0)

/-- Python attribute lookup on a response object whose `__dict__` is the
association list produced by its parser; `none` models `AttributeError`. -/
def getattr (attrs : List (String × PyVal)) (name : String) : Option PyVal :=
  (attrs.find? (fun e => e.1 == name)).map (fun e => e.2)

/-- Source: `msmart/device/C3/command.py` lines 206-274: `QueryBasicResponse._parse`
assigns exactly these attributes, in this order, from the payload bytes.
Payloads too short for the indexed accesses (`payload[24]`, and `payload[26]`
when `len(payload) > 25`) raise `IndexError`, modelled as `none`. -/
def QueryBasicResponse.parse (p : List Nat) : Option (List (String × PyVal)) :=
  if p.length < 25 then none
  else if p.length > 25 ∧ p.length < 27 then none
  else some (
    [("zone1_power_state", bitBool (p.getD 1 0) 0x01),
     ("zone2_power_state", bitBool (p.getD 1 0) 0x02),
     ("dhw_power_state", bitBool (p.getD 1 0) 0x04),
     ("zone1_curve_state", bitBool (p.getD 1 0) 0x08),
     ("zone2_curve_state", bitBool (p.getD 1 0) 0x10),
     ("tbh_state", bitBool (p.getD 1 0) 0x40),
     ("fastdhw_state", bitBool (p.getD 1 0) 0x40),
     ("heat_enable", bitBool (p.getD 2 0) 0x01),
     ("cool_enable", bitBool (p.getD 2 0) 0x02),
     ("dhw_enable", bitBool (p.getD 2 0) 0x04),
     ("zone2_enable", bitBool (p.getD 2 0) 0x08),
     ("zone1_temperature_type", PyVal.pyInt (if (p.getD 2 0 &&& 0x10) != 0 then 1 else 0)),
     ("zone2_temperature_type", PyVal.pyInt (if (p.getD 2 0 &&& 0x20) != 0 then 1 else 0)),
     ("room_thermostat_power_state", bitBool (p.getD 2 0) 0x40),
     ("room_thermostat_enable", bitBool (p.getD 2 0) 0x80),
     ("time_set_state", bitBool (p.getD 3 0) 0x01),
     ("silence_on_state", bitBool (p.getD 3 0) 0x02),
     ("holiday_on_state", bitBool (p.getD 3 0) 0x04),
     ("eco_on_state", bitBool (p.getD 3 0) 0x08),
     ("zone1_terminal_type", PyVal.pyInt ((p.getD 3 0 &&& 0x30) >>> 4)),
     ("zone2_terminal_type", PyVal.pyInt ((p.getD 3 0 &&& 0xC0) >>> 4)),
     ("run_mode", PyVal.pyInt (p.getD 4 0)),
     ("run_mode_under_auto", PyVal.pyInt (p.getD 5 0)),
     ("zone1_target_temperature", PyVal.pyInt (p.getD 6 0)),
     ("zone2_target_temperature", PyVal.pyInt (p.getD 7 0)),
     ("dhw_target_temperature", PyVal.pyInt (p.getD 8 0)),
     ("room_target_temperature", PyVal.pyRat ((p.getD 9 0 : ℚ) / 2)),
     ("zone1_heat_max_temperature", PyVal.pyInt (p.getD 10 0)),
     ("zone1_heat_min_temperature", PyVal.pyInt (p.getD 11 0)),
     ("zone1_cool_max_temperature", PyVal.pyInt (p.getD 12 0)),
     ("zone1_cool_min_temperature", PyVal.pyInt (p.getD 13 0)),
     ("zone2_heat_max_temperature", PyVal.pyInt (p.getD 14 0)),
     ("zone2_heat_min_temperature", PyVal.pyInt (p.getD 15 0)),
     ("zone2_cool_max_temperature", PyVal.pyInt (p.getD 16 0)),
     ("zone2_cool_min_temperature", PyVal.pyInt (p.getD 17 0)),
     ("room_max_temperature", PyVal.pyRat ((p.getD 18 0 : ℚ) / 2)),
     ("room_min_temperature", PyVal.pyRat ((p.getD 19 0 : ℚ) / 2)),
     ("dhw_max_temperature", PyVal.pyInt (p.getD 20 0)),
     ("dhw_min_temperature", PyVal.pyInt (p.getD 21 0)),
     ("tank_temperature", if p.getD 22 0 = 0xFF then PyVal.pyNone else PyVal.pyInt (p.getD 22 0)),
     ("error_code", PyVal.pyInt (p.getD 23 0)),
     ("tbh_enable", bitBool (p.getD 24 0) 0x80)] ++
    (if p.length > 25 then
      [("zone1_curve_type", PyVal.pyInt (p.getD 25 0)),
       ("zone2_curve_type", PyVal.pyInt (p.getD 26 0))]
     else []))

/-- Attributes of a parsed POWER4 report, as assigned by
`ReportPower4Response._parse` (`msmart/device/C3/command.py` lines 288-323). -/
structure ReportPower4Data where
  heat_active : Bool
  cool_active : Bool
  dhw_active : Bool
  tbh_active : Bool
  electric_power : Nat
  thermal_power : Nat
  outdoor_air_temperature : Int
  zone1_target_temperature : Nat
  zone2_target_temperature : Nat
  water_tank_temperature : Nat
  online : Bool
  voltage : Nat
  deriving DecidableEq, Repr

/-- Source: `msmart/device/C3/command.py` lines 288-323: `ReportPower4Response._parse`.
Activity bits from `payload[1]`; `electric_power`/`thermal_power` as
`struct.unpack(">I", payload[2:6])`/`payload[6:10]`; signed byte 10 for the
outdoor air temperature; bytes 11/12/13 for targets and tank; `payload[17]`
bit 0 for online; `payload[156]` for mains voltage.  Payloads too short for
the accesses (up to index 156) raise, modelled as `none`. -/
def ReportPower4Response.parse (p : List Nat) : Option ReportPower4Data :=
  if p.length < 157 then none
  else some
    { heat_active := (p.getD 1 0 &&& 0x01) != 0
      cool_active := (p.getD 1 0 &&& 0x02) != 0
      dhw_active := (p.getD 1 0 &&& 0x04) != 0
      tbh_active := (p.getD 1 0 &&& 0x08) != 0
      electric_power := be32 p 2
      thermal_power := be32 p 6
      outdoor_air_temperature := signedByte (p.getD 10 0)
      zone1_target_temperature := p.getD 11 0
      zone2_target_temperature := p.getD 12 0
      water_tank_temperature := p.getD 13 0
      online := (p.getD 17 0 &&& 0x01) != 0
      voltage := p.getD 156 0 }

/-- Attributes of a parsed unit-parameters response
(`msmart/device/C3/command.py` lines 344-356). -/
structure QueryUnitParametersData where
  outdoor_temperature : Int
  water_temperature_2 : Int
  tempT5 : Int
  room_temperature : Int
  deriving DecidableEq, Repr

/-- Source: `msmart/device/C3/command.py` lines 344-356:
`QueryUnitParametersResponse._parse`, signed bytes 8, 11, 38 and 39. -/
def QueryUnitParametersResponse.parse (p : List Nat) : Option QueryUnitParametersData :=
  if p.length < 40 then none
  else some
    { outdoor_temperature := signedByte (p.getD 8 0)
      water_temperature_2 := signedByte (p.getD 11 0)
      tempT5 := signedByte (p.getD 38 0)
      room_temperature := signedByte (p.getD 39 0) }

/-- The variants `Response.construct` can return for a heat-pump frame
(`msmart/device/C3/command.py` lines 176-192). -/
inductive C3Response where
  | basic (attrs : List (String × PyVal))
  | unitParameters (d : QueryUnitParametersData)
  | power4 (d : ReportPower4Data)
  | generic (t : Nat) (payload : List Nat)
  deriving DecidableEq, Repr

/-- Source: `msmart/device/C3/command.py` lines 154-192: `Response.construct`
validates the frame with `Frame.validate` (raising `InvalidFrameException`
on a bad checksum, modelled as `none`), then dispatches on
`(frame[9], frame[10])`: QUERY/QUERY_BASIC, QUERY/QUERY_UNIT_PARAMETERS,
REPORT/REPORT_POWER4, else the generic `Response` carrying `frame[10:-1]`. -/
def C3Response.construct (frame : List Nat) : Option C3Response :=
  if ¬ Frame.validate frame then none
  else if frame.length < 11 then none
  else
    let payload := (frame.drop 10).dropLast
    let ft := frame.getD 9 0
    let t := frame.getD 10 0
    if ft = FrameType.QUERY ∧ t = QueryType.QUERY_BASIC then
      (QueryBasicResponse.parse payload).map C3Response.basic
    else if ft = FrameType.QUERY ∧ t = QueryType.QUERY_UNIT_PARAMETERS then
      (QueryUnitParametersResponse.parse payload).map C3Response.unitParameters
    else if ft = FrameType.REPORT ∧ t = ReportType.REPORT_POWER4 then
      (ReportPower4Response.parse payload).map C3Response.power4
    else some (C3Response.generic t payload)

/-- One `HeatPump.Zone` (`msmart/device/C3/device.py` lines 43-58).  Fields
hold dynamically typed values, as the Python attributes do. -/
structure ZoneState where
  power_state : PyVal
  curve_state : PyVal
  temperature_type : PyVal
  terminal_type : PyVal
  target_temperature : PyVal
  min_heat_temperature : PyVal
  max_heat_temperature : PyVal
  min_cool_temperature : PyVal
  max_cool_temperature : PyVal
  deriving DecidableEq, Repr

/-- Source: `HeatPump.Zone.__init__` defaults: power and curve off, air temperature
type (0), fan-coil terminal (0), target 25, heat bounds 25-55, cool 5-25. -/
def ZoneState.init : ZoneState :=
  { power_state := PyVal.pyBool false
    curve_state := PyVal.pyBool false
    temperature_type := PyVal.pyInt 0
    terminal_type := PyVal.pyInt 0
    target_temperature := PyVal.pyInt 25
    min_heat_temperature := PyVal.pyInt 25
    max_heat_temperature := PyVal.pyInt 55
    min_cool_temperature := PyVal.pyInt 5
    max_cool_temperature := PyVal.pyInt 25 }

/-- The mutable state of a `HeatPump` device object that
`HeatPump._update_state` touches (`msmart/device/C3/device.py`). -/
structure HeatPumpState where
  run_mode : PyVal
  heat_enable : PyVal
  cool_enable : PyVal
  zone_1 : ZoneState
  zone_2 : Option ZoneState
  dhw_enable : PyVal
  dhw_power_state : PyVal
  dhw_target_temperature : PyVal
  dhw_min_temperature : PyVal
  dhw_max_temperature : PyVal
  room_thermostat_enable : PyVal
  room_thermostat_power_state : PyVal
  room_target_temperature : PyVal
  room_min_temperature : PyVal
  room_max_temperature : PyVal
  tbh_state : PyVal
  fastdhw_state : PyVal
  tank_temperature : PyVal
  outdoor_temperature : PyVal
  electric_power : PyVal
  thermal_power : PyVal
  voltage : PyVal
  deriving DecidableEq, Repr

/-- Source: `HeatPump.__init__` defaults (`msmart/device/C3/device.py` lines 97-134):
run mode AUTO (1), zone 2 absent, DHW 25 in 20-60, room thermostat target
25.0 in 17.0-30.0, misc flags off, unknown measurements `None`. -/
def HeatPumpState.init : HeatPumpState :=
  { run_mode := PyVal.pyInt 1
    heat_enable := PyVal.pyBool false
    cool_enable := PyVal.pyBool false
    zone_1 := ZoneState.init
    zone_2 := none
    dhw_enable := PyVal.pyBool false
    dhw_power_state := PyVal.pyBool false
    dhw_target_temperature := PyVal.pyInt 25
    dhw_min_temperature := PyVal.pyInt 20
    dhw_max_temperature := PyVal.pyInt 60
    room_thermostat_enable := PyVal.pyBool false
    room_thermostat_power_state := PyVal.pyBool false
    room_target_temperature := PyVal.pyRat 25
    room_min_temperature := PyVal.pyRat 17
    room_max_temperature := PyVal.pyRat 30
    tbh_state := PyVal.pyBool false
    fastdhw_state := PyVal.pyBool false
    tank_temperature := PyVal.pyNone
    outdoor_temperature := PyVal.pyNone
    electric_power := PyVal.pyNone
    thermal_power := PyVal.pyNone
    voltage := PyVal.pyNone }

/-- Python truthiness of a `PyVal`, as used by `if res.zone2_enable`. -/
def pyTruthy : PyVal → Bool
  | PyVal.pyBool b => b
  | PyVal.pyInt n => n != 0
  | PyVal.pyRat q => q != 0
  | PyVal.pyNone => false

/-- Modelled from the spec: `MideaIntEnum.get_from_value` (`msmart/utils.py`
is not under `src/`), the "from-value lookup with a typed default" of spec
§4.8, for `HeatPump.RunMode` whose members are AUTO=1, COOL=2, HEAT=3, DHW=5
with DEFAULT = AUTO (`msmart/device/C3/device.py` lines 22-30). -/
def RunMode.getFromValue (v : PyVal) : PyVal :=
  match v with
  | PyVal.pyInt n => if n = 1 ∨ n = 2 ∨ n = 3 ∨ n = 5 then PyVal.pyInt n else PyVal.pyInt 1
  | _ => PyVal.pyInt 1

/-- Source: `HeatPump.TemperatureType(x)` (`msmart/device/C3/device.py` lines 38-41):
an `IntEnum` call that succeeds only on the member values 0 (AIR) and
1 (WATER), raising `ValueError` otherwise. -/
def TemperatureType.ofVal (v : PyVal) : Option PyVal :=
  match v with
  | PyVal.pyInt 0 => some (PyVal.pyInt 0)
  | PyVal.pyInt 1 => some (PyVal.pyInt 1)
  | _ => none

/-- Source: `HeatPump.TerminalType(x)` (`msmart/device/C3/device.py` lines 32-36):
an `IntEnum` call that succeeds only on member values 0, 1, 2. -/
def TerminalType.ofVal (v : PyVal) : Option PyVal :=
  match v with
  | PyVal.pyInt 0 => some (PyVal.pyInt 0)
  | PyVal.pyInt 1 => some (PyVal.pyInt 1)
  | PyVal.pyInt 2 => some (PyVal.pyInt 2)
  | _ => none

/-- The zone-loop body of `HeatPump._update_state`
(`msmart/device/C3/device.py` lines 149-173) for one zone with attribute
prefix `pre` (`"zone1"` or `"zone2"`).  Each `getattr(res, ...)` is a lookup
in the parsed attribute list; a missing attribute raises `AttributeError`,
modelled by returning the zone as mutated so far together with the failing
attribute name.  Enum conversion failures return `"ValueError"`. -/
def updateZoneFromAttrs (attrs : List (String × PyVal)) (pre : String)
    (z0 : ZoneState) : ZoneState × Option String :=
  match getattr attrs (pre ++ "_power_state") with
  | none => (z0, some (pre ++ "_power_state"))
  | some v1 =>
  let z := { z0 with power_state := v1 }
  match getattr attrs (pre ++ "_curve_state") with
  | none => (z, some (pre ++ "_curve_state"))
  | some v2 =>
  let z := { z with curve_state := v2 }
  match getattr attrs (pre ++ "_temp_type") with
  | none => (z, some (pre ++ "_temp_type"))
  | some v3 =>
  match TemperatureType.ofVal v3 with
  | none => (z, some "ValueError")
  | some t3 =>
  let z := { z with temperature_type := t3 }
  match getattr attrs (pre ++ "_terminal_type") with
  | none => (z, some (pre ++ "_terminal_type"))
  | some v4 =>
  match TerminalType.ofVal v4 with
  | none => (z, some "ValueError")
  | some t4 =>
  let z := { z with terminal_type := t4 }
  match getattr attrs (pre ++ "_target_temperature") with
  | none => (z, some (pre ++ "_target_temperature"))
  | some v5 =>
  let z := { z with target_temperature := v5 }
  match getattr attrs (pre ++ "_heat_min_temperature") with
  | none => (z, some (pre ++ "_heat_min_temperature"))
  | some v6 =>
  let z := { z with min_heat_temperature := v6 }
  match getattr attrs (pre ++ "_heat_max_temperature") with
  | none => (z, some (pre ++ "_heat_max_temperature"))
  | some v7 =>
  let z := { z with max_heat_temperature := v7 }
  match getattr attrs (pre ++ "_cool_min_temperature") with
  | none => (z, some (pre ++ "_cool_min_temperature"))
  | some v8 =>
  let z := { z with min_cool_temperature := v8 }
  match getattr attrs (pre ++ "_cool_max_temperature") with
  | none => (z, some (pre ++ "_cool_max_temperature"))
  | some v9 =>
  ({ z with max_cool_temperature := v9 }, none)

/-- The statements of `HeatPump._update_state` after the zone loop
(`msmart/device/C3/device.py` lines 175-193): DHW, room thermostat, TBH,
fast-DHW and tank-temperature assignments, each read from the response. -/
def HeatPump.updateStateTail (attrs : List (String × PyVal))
    (s1 : HeatPumpState) : HeatPumpState × Option String :=
  match getattr attrs "dhw_enable" with
  | none => (s1, some "dhw_enable")
  | some w1 =>
  let s := { s1 with dhw_enable := w1 }
  match getattr attrs "dhw_power_state" with
  | none => (s, some "dhw_power_state")
  | some w2 =>
  let s := { s with dhw_power_state := w2 }
  match getattr attrs "dhw_target_temperature" with
  | none => (s, some "dhw_target_temperature")
  | some w3 =>
  let s := { s with dhw_target_temperature := w3 }
  match getattr attrs "dhw_min_temperature" with
  | none => (s, some "dhw_min_temperature")
  | some w4 =>
  let s := { s with dhw_min_temperature := w4 }
  match getattr attrs "dhw_max_temperature" with
  | none => (s, some "dhw_max_temperature")
  | some w5 =>
  let s := { s with dhw_max_temperature := w5 }
  match getattr attrs "room_thermostat_enable" with
  | none => (s, some "room_thermostat_enable")
  | some w6 =>
  let s := { s with room_thermostat_enable := w6 }
  match getattr attrs "room_thermostat_power_state" with
  | none => (s, some "room_thermostat_power_state")
  | some w7 =>
  let s := { s with room_thermostat_power_state := w7 }
  match getattr attrs "room_target_temperature" with
  | none => (s, some "room_target_temperature")
  | some w8 =>
  let s := { s with room_target_temperature := w8 }
  match getattr attrs "room_min_temperature" with
  | none => (s, some "room_min_temperature")
  | some w9 =>
  let s := { s with room_min_temperature := w9 }
  match getattr attrs "room_max_temperature" with
  | none => (s, some "room_max_temperature")
  | some w10 =>
  let s := { s with room_max_temperature := w10 }
  match getattr attrs "tbh_state" with
  | none => (s, some "tbh_state")
  | some w11 =>
  let s := { s with tbh_state := w11 }
  match getattr attrs "fastdhw_state" with
  | none => (s, some "fastdhw_state")
  | some w12 =>
  let s := { s with fastdhw_state := w12 }
  match getattr attrs "tank_temperature" with
  | none => (s, some "tank_temperature")
  | some w13 =>
  ({ s with tank_temperature := w13 }, none)

/-- Source: `msmart/device/C3/device.py` lines 136-193: the `QueryBasicResponse`
branch of `HeatPump._update_state`, statement by statement.  Attribute reads
on the response are lookups in its parsed attribute list; the first missing
attribute aborts the update mid-way, leaving the device object with every
assignment made so far (Python mutates in place and then propagates
`AttributeError`).  The result is the mutated state paired with the name of
the failed attribute, or `none` on completion. -/
def HeatPump.updateStateBasic (attrs : List (String × PyVal))
    (s0 : HeatPumpState) : HeatPumpState × Option String :=
  match getattr attrs "run_mode" with
  | none => (s0, some "run_mode")
  | some v1 =>
  let s := { s0 with run_mode := RunMode.getFromValue v1 }
  match getattr attrs "heat_enable" with
  | none => (s, some "heat_enable")
  | some v2 =>
  let s := { s with heat_enable := v2 }
  match getattr attrs "cool_enable" with
  | none => (s, some "cool_enable")
  | some v3 =>
  let s := { s with cool_enable := v3 }
  match getattr attrs "zone2_enable" with
  | none => (s, some "zone2_enable")
  | some v4 =>
  let s := if pyTruthy v4 && s.zone_2.isNone
           then { s with zone_2 := some ZoneState.init } else s
  match updateZoneFromAttrs attrs "zone1" s.zone_1 with
  | (z1, some e) => ({ s with zone_1 := z1 }, some e)
  | (z1, none) =>
  let s := { s with zone_1 := z1 }
  match s.zone_2 with
  | some z2prev =>
    (match updateZoneFromAttrs attrs "zone2" z2prev with
     | (z2, some e) => ({ s with zone_2 := some z2 }, some e)
     | (z2, none) => HeatPump.updateStateTail attrs { s with zone_2 := some z2 })
  | none => HeatPump.updateStateTail attrs s

/-- Source: `msmart/device/CC/command.py` lines 31-47: the commercial-cooler
control IDs. -/
inductive ControlId where
  | POWER | TARGET_TEMPERATURE | TEMPERATURE_UNIT | MODE | FAN_SPEED
  | VERT_SWING_ANGLE | HORZ_SWING_ANGLE | WIND_SENSE | ECO | SILENT
  | SLEEP | SELF_CLEAN | PURIFIER | BEEP | DISPLAY | AUX_MODE
  deriving DecidableEq, Repr

/-- Source: `msmart/device/CC/command.py` lines 49-57: `ControlId.decode`.
`TARGET_TEMPERATURE` decodes to `(data[0] / 2.0) - 40` (a float, modelled
as `ℚ`), `PURIFIER` to `data[0] == 0x01`, anything else to `data[0]`. -/
def ControlId.decode (id : ControlId) (data : List Nat) : PyVal :=
  match id with
  | ControlId.TARGET_TEMPERATURE => PyVal.pyRat ((data.getD 0 0 : ℚ) / 2 - 40)
  | ControlId.PURIFIER => PyVal.pyBool (data.getD 0 0 == 0x01)
  | _ => PyVal.pyInt (data.getD 0 0)

/-- Source: `msmart/device/CC/command.py` lines 59-67: `ControlId.encode` for an
integer argument.  `TARGET_TEMPERATURE` encodes to the single byte
`(2 * int(T)) + 80` (Python `bytes(...)` raises unless the value is in
0..255), `PURIFIER` to `0x01`/`0x02`, anything else passes the byte through. -/
def ControlId.encode (id : ControlId) (arg : Int) : List Nat :=
  match id with
  | ControlId.TARGET_TEMPERATURE => [(2 * arg + 80).toNat]
  | ControlId.PURIFIER => [if arg != 0 then 0x01 else 0x02]
  | _ => [arg.toNat]

/-- Source: `msmart/device/CC/command.py` lines 203-226: the prefix of
`QueryResponse._parse` up to the target temperature: the payload must begin
with the header `0x01 0xFE` (else `InvalidResponseException`, modelled as
`none`), and the state-response target temperature is `payload[11] / 2.0 - 40`. -/
def QueryResponse.parseTargetTemperature (payload : List Nat) : Option ℚ :=
  if payload.getD 0 0 = 0x01 ∧ payload.getD 1 0 = 0xFE then
    some ((payload.getD 11 0 : ℚ) / 2 - 40)
  else none

/-- Modelled from the spec: the air-conditioner property IDs involved in the
breeze modes (spec §3 AC Properties: `BREEZE_AWAY=0x0018`,
`BREEZELESS=0x0042`, `BREEZE_CONTROL=0x0043`, the list being elided with
an ellipsis; `BREEZE_MILD` stands for the individual per-mode property of
the breeze-mild mode).  `src/msmart/device/AC/device.py` is not under
`src/`; only its test is. -/
inductive PropertyId where
  | SWING_UD_ANGLE | SWING_LR_ANGLE | INDOOR_HUMIDITY | BREEZE_AWAY
  | BREEZE_MILD | BREEZELESS | BREEZE_CONTROL | RATE_SELECT
  deriving DecidableEq, Repr

/-- The three breeze modes of the air conditioner. -/
inductive BreezeMode where
  | away | mild | breezeless
  deriving DecidableEq, Repr

/-- Modelled from the spec: the individual per-mode breeze property
(spec §4.8 "the per-mode individual property"). -/
def breezeIndividualProperty : BreezeMode → PropertyId
  | BreezeMode.away => PropertyId.BREEZE_AWAY
  | BreezeMode.mild => PropertyId.BREEZE_MILD
  | BreezeMode.breezeless => PropertyId.BREEZELESS

/-- The slice of air-conditioner device state involved in the breeze-mode
setters: the three mode flags, the supported-properties set and the
updated ("dirty") properties set. -/
structure ACState where
  breeze_away : Bool
  breeze_mild : Bool
  breezeless : Bool
  supported_properties : List PropertyId
  updated_properties : List PropertyId
  deriving DecidableEq, Repr

/-- Modelled from the spec: the breeze-mode setters of the air-conditioner
device (`src/msmart/device/AC/device.py` is not under `src/`; only its test
is).  Spec §3 invariant (a) and §4.8: setting one of breeze-away /
breeze-mild / breezeless to true clears the other two, and the model marks
dirty `PropertyId.BREEZE_CONTROL` when that property is supported
(superseding the individual properties), otherwise the per-mode individual
property. -/
def ACState.setBreeze (mode : BreezeMode) (s0 : ACState) : ACState :=
  let s :=
    match mode with
    | BreezeMode.away =>
        { s0 with breeze_away := true, breeze_mild := false, breezeless := false }
    | BreezeMode.mild =>
        { s0 with breeze_mild := true, breeze_away := false, breezeless := false }
    | BreezeMode.breezeless =>
        { s0 with breezeless := true, breeze_away := false, breeze_mild := false }
  let prop :=
    if s.supported_properties.contains PropertyId.BREEZE_CONTROL
    then PropertyId.BREEZE_CONTROL
    else breezeIndividualProperty mode
  { s with updated_properties := s.updated_properties.insert prop }

/-- The device-info dictionary built by `Discover._get_device_info`
(`msmart/discover.py` line 313). -/
structure DeviceInfo where
  ip : String
  port : Nat
  id : Nat
  name : String
  sn : String
  type : Nat
  deriving DecidableEq, Repr

/-- Outcome of `Discover._get_device_info`: a device-info dictionary, the
`None` returned when decryption fails, or an uncaught exception. -/
inductive InfoResult where
  | info (d : DeviceInfo)
  | noInfo
  | error (msg : String)
  deriving DecidableEq, Repr

/-- Source: `str(ipaddress.IPv4Address(decrypted_mv[3::-1].tobytes()))`
(`msmart/discover.py` lines 295-296): the reversed first four bytes read
big-endian, rendered as a dotted decimal quad. -/
def ipv4String (dec : List Nat) : String :=
  toString (dec.getD 3 0) ++ "." ++ toString (dec.getD 2 0) ++ "." ++
  toString (dec.getD 1 0) ++ "." ++ toString (dec.getD 0 0)

/-- Python `bytes.decode()` restricted to the ASCII plane (the discovery
serial numbers and names are ASCII); a byte above 0x7F is modelled as a
decode failure. -/
def asciiDecode (l : List Nat) : Option String :=
  if l.all (fun b => b < 128) then
    some (String.mk (l.map (fun b => Char.ofNat b)))
  else none

/-- Value of one hexadecimal digit character, else `none`. -/
def hexDigitVal (c : Char) : Option Nat :=
  if 48 ≤ c.toNat ∧ c.toNat ≤ 57 then some (c.toNat - 48)
  else if 97 ≤ c.toNat ∧ c.toNat ≤ 102 then some (c.toNat - 87)
  else if 65 ≤ c.toNat ∧ c.toNat ≤ 70 then some (c.toNat - 55)
  else none

/-- Python `int(s, 16)` on a plain nonempty hexadecimal string
(the discovery name suffix), `none` on anything else (`ValueError`). -/
def hexParse (s : String) : Option Nat :=
  if s.isEmpty then none
  else s.data.foldl
    (fun acc c =>
      match acc, hexDigitVal c with
      | some a, some d => some (16 * a + d)
      | _, _ => none)
    (some 0)

/-- Python `str.split(sep)` for a one-character separator, over the
character list of the string (empty parts are kept, as in Python). -/
def splitOnChar (sep : Char) : List Char → List (List Char)
  | [] => [[]]
  | c :: rest =>
    let r := splitOnChar sep rest
    if c = sep then [] :: r
    else
      match r with
      | h :: t => (c :: h) :: t
      | [] => [[c]]

/-- Source: `msmart/discover.py` lines 270-313: the V2/V3 branch of
`Discover._get_device_info`.  For V3 the 8-byte header and 16-byte trailing
hash are stripped; the encrypted payload is `data[40:-16]` and the device id
the little-endian `data[20:26]`.  `Security.decrypt_aes` (whose module is
not under `src/`) is abstracted as the `decrypt` parameter, `none` standing
for the caught `ValueError` that makes the function return `None`.  From the
decrypted body: reported IP from the reversed first four bytes, port from
little-endian bytes 4..5, a warning (second component) exactly when the
reported IP differs from the source `ip`, serial from bytes 8..39, name from
the length-prefixed field at byte 40, device type parsed as hex from the
second `_`-separated name part.  The returned dictionary carries the
REPORTED ip string. -/
def Discover.getDeviceInfoV23 (decrypt : List Nat → Option (List Nat))
    (ip : String) (version : Nat) (data0 : List Nat) : InfoResult × Bool :=
  let data := if version = 3 then pyDropLast 16 (data0.drop 8) else data0
  let encrypted := pyDropLast 16 (data.drop 40)
  let id := leBytes ((data.drop 20).take 6)
  match decrypt encrypted with
  | none => (InfoResult.noInfo, false)
  | some dec =>
    if dec.length < 4 then (InfoResult.error "ValueError", false)
    else
      let ipStr := ipv4String dec
      let port := dec.getD 4 0 + 256 * dec.getD 5 0
      let warned := ipStr != ip
      match asciiDecode ((dec.drop 8).take 32) with
      | none => (InfoResult.error "UnicodeDecodeError", warned)
      | some sn =>
        if dec.length < 41 then (InfoResult.error "IndexError", warned)
        else
          let nameLength := dec.getD 40 0
          match asciiDecode ((dec.drop 41).take nameLength) with
          | none => (InfoResult.error "UnicodeDecodeError", warned)
          | some name =>
            let parts := splitOnChar (Char.ofNat 95) name.data
            if parts.length < 2 then (InfoResult.error "IndexError", warned)
            else
              match hexParse (String.mk (parts.getD 1 [])) with
              | none => (InfoResult.error "ValueError", warned)
              | some t =>
                (InfoResult.info
                  { ip := ipStr, port := port, id := id,
                    name := name, sn := sn, type := t }, warned)
/-- The captured POWER4 report frame of `TestPower4Response.test_message` (`src/msmart/device/C3/test_command.py` line 94), the literal of spec scenario 6. -/
def power4TestFrame : List Nat :=
  [0xAA, 0xB9, 0xC3, 0x00, 0x00, 0x00, 0x00, 0x00, 0x00, 0x04, 0x04,
   0x00, 0x00, 0x00, 0x12, 0xFC, 0x00, 0x00, 0x23, 0xAA, 0x0B, 0x20,
   0x1E, 0x29, 0x30, 0xFF, 0xFF, 0x01, 0x00, 0x00, 0x00, 0x00, 0x00,
   0x00, 0x00, 0x00, 0x00, 0x00, 0x00, 0x00, 0x00, 0x00, 0x00, 0x00,
   0x00, 0x00, 0x00, 0x00, 0x00, 0x00, 0x00, 0x00, 0x00, 0x00, 0x00,
   0x00, 0x00, 0x00, 0x00, 0x00, 0x00, 0x00, 0x00, 0x00, 0x00, 0x00,
   0x00, 0x00, 0x00, 0x00, 0x00, 0x00, 0x00, 0x00, 0x00, 0x00, 0x00,
   0x00, 0x00, 0x00, 0x00, 0x00, 0x00, 0x00, 0x00, 0x00, 0x00, 0x00,
   0x00, 0x00, 0x00, 0x00, 0x00, 0x00, 0x00, 0x00, 0x00, 0x00, 0x00,
   0x00, 0x00, 0x00, 0x00, 0x00, 0x00, 0x00, 0x00, 0x00, 0x00, 0x00,
   0x00, 0x00, 0x00, 0x00, 0x00, 0x00, 0x00, 0x00, 0x00, 0x00, 0x00,
   0x00, 0x00, 0x00, 0x00, 0x00, 0x00, 0x00, 0x00, 0x00, 0x00, 0x00,
   0x00, 0x00, 0x00, 0x00, 0x00, 0x00, 0x00, 0x00, 0x00, 0x00, 0x00,
   0x00, 0x00, 0x00, 0x00, 0x00, 0x00, 0x00, 0x00, 0x00, 0x00, 0x00,
   0x00, 0x00, 0x00, 0x00, 0x00, 0x00, 0x00, 0x00, 0x00, 0x00, 0x00,
   0x00, 0xE1, 0x00, 0x00, 0x00, 0x00, 0x00, 0x00, 0x00, 0x00, 0x00,
   0x00, 0x00, 0x00, 0x00, 0x00, 0x00, 0x00, 0x00, 0x14, 0x0B]

/-- The captured basic-query response frame of `TestQueryBasicResponse.test_message` (`src/msmart/device/C3/test_command.py` line 65). -/
def basicTestFrame : List Nat :=
  [0xAA, 0x23, 0xC3, 0x00, 0x00, 0x00, 0x00, 0x00, 0x00, 0x03, 0x01,
   0x05, 0x17, 0xA1, 0x03, 0x03, 0x19, 0x1E, 0x14, 0x30, 0x37, 0x19,
   0x19, 0x05, 0x37, 0x19, 0x19, 0x05, 0x3C, 0x22, 0x3C, 0x14, 0x22,
   0x00, 0x00, 0x2C]

/-- The frame of `TestResponse.test_checksum_as_crc` (`src/msmart/device/AC/test_command.py` line 4). -/
def checksumAsCrcTestFrame : List Nat :=
  [0xAA, 0x1E, 0xAC, 0x00, 0x00, 0x00, 0x00, 0x00, 0x00, 0x03, 0xC0,
   0x00, 0x4B, 0x1E, 0x7F, 0x7F, 0x00, 0x00, 0x00, 0x00, 0x00, 0x69,
   0x63, 0x00, 0x00, 0x00, 0x00, 0x00, 0x00, 0x0D, 0x33]

/-- A decrypted discovery body whose reported IP (10.0.0.2) differs from the
datagram source: reversed IP bytes, little-endian port 6444, serial of 32
ASCII bytes, length-11 name "net_ac_63BA". -/
def mismatchBody : List Nat :=
  [0x02, 0x00, 0x00, 0x0A, 0x2C, 0x19, 0x00, 0x00] ++
  List.replicate 32 0x41 ++
  [11, 0x6E, 0x65, 0x74, 0x5F, 0x61, 0x63, 0x5F, 0x36, 0x33, 0x42, 0x41]

/-- A discovery datagram stand-in long enough for the outer slices of
`Discover._get_device_info` (its ciphertext is irrelevant once the
decryption oracle is fixed). -/
def mismatchDatagram : List Nat := List.replicate 60 0


/-- Payload slice `frame[10:-1]` of the captured basic-query response. -/
def basicPayload : List Nat := (basicTestFrame.drop 10).dropLast

/-- Attribute list of the parsed captured basic-query response. -/
def basicAttrs : List (String × PyVal) :=
  (QueryBasicResponse.parse basicPayload).getD []

/-- The attribute values the POWER4 parser extracts from the captured
report frame (the expectations of `TestPower4Response.test_message`). -/
def power4TestData : ReportPower4Data :=
  { heat_active := false
    cool_active := false
    dhw_active := false
    tbh_active := false
    electric_power := 4860
    thermal_power := 9130
    outdoor_air_temperature := 11
    zone1_target_temperature := 32
    zone2_target_temperature := 30
    water_tank_temperature := 41
    online := true
    voltage := 225 }

/-- The device-info dictionary produced for the mismatching discovery body. -/
def mismatchInfo : DeviceInfo :=
  { ip := "10.0.0.2"
    port := 6444
    id := 0
    name := "net_ac_63BA"
    sn := "AAAAAAAAAAAAAAAAAAAAAAAAAAAAAAAA"
    type := 0xAC }

/-- The flag of one breeze mode within the device state. -/
def breezeFlag : BreezeMode → ACState → Bool
  | BreezeMode.away, s => s.breeze_away
  | BreezeMode.mild, s => s.breeze_mild
  | BreezeMode.breezeless, s => s.breezeless

/-- C1: for every device type, frame type and payload (total frame length at
most 255 bytes), `Frame.tobytes` carries the payload unchanged at bytes
10..end-2 and ends with the checksum byte `(~sum(frame[1..end-1]) + 1) & 0xFF`;
`Frame.validate` accepts exactly the frames whose last byte is that checksum;
hence decoding an encoded well-formed frame returns the original frame. -/
theorem c1_frame_roundtrip (dt ft : Nat) (p : List Nat)
    (hdt : dt ≤ 255) (hft : ft ≤ 255) (hlen : p.length + 11 ≤ 255) :
    ((Frame.tobytes dt ft p).drop 10).dropLast = p ∧
    (Frame.tobytes dt ft p).getLastD 0 =
      Frame.checksum (((Frame.tobytes dt ft p).drop 1).dropLast) ∧
    (∀ g : List Nat, g ≠ [] →
      (Frame.validate g = true ↔
        g.getLastD 0 = Frame.checksum ((g.drop 1).dropLast))) ∧
    Frame.decode (Frame.tobytes dt ft p) = some (dt, ft, p) := by
  have aux1 : ∀ (x c : Nat) (l : List Nat), (x :: (l ++ [c])).dropLast = x :: l := by
    intro x c l
    rw [← List.cons_append, List.dropLast_concat]
  have aux2 : ∀ (x c : Nat) (l : List Nat), (x :: (l ++ [c])).getLast?.getD 0 = c := by
    intro x c l
    rw [← List.cons_append, List.getLast?_concat]
    rfl
  refine ⟨?_, ?_, ?_, ?_⟩
  · simp [Frame.tobytes]
  · simp [Frame.tobytes, aux1, aux2]
  · intro g _
    simp [Frame.validate]
    exact eq_comm
  · simp [Frame.decode, Frame.validate, Frame.tobytes, aux1, aux2]

/-- Witness for C1 at a concrete frame: an air-conditioner query frame with a
one-byte payload decodes back to its inputs. -/
theorem c1_frame_roundtrip_witness :
    Frame.decode (Frame.tobytes 0xAC 0x03 [0x41]) = some (0xAC, 0x03, [0x41]) :=
  (c1_frame_roundtrip 0xAC 0x03 [0x41] (by decide) (by decide) (by decide)).2.2.2

/-- C2: the (spec-modelled) frame validator of the air-conditioner response
accepts a received frame in either of two forms — the last byte is the
canonical two's-complement checksum, or the last byte is a CRC-8 over the
payload with the checksum the byte before it — and in particular it accepts
the frame `aa1e...0d33` of the repository test instead of raising
`InvalidFrameException`. -/
theorem c2_two_form_validation (f : List Nat)
    (h : f.getLastD 0 = Frame.checksum ((f.drop 1).dropLast) ∨
         ((f.dropLast).getLastD 0 = Frame.checksum (pyDropLast 2 (f.drop 1)) ∧
          f.getLastD 0 = crc8Calculate (pyDropLast 2 (f.drop 10)))) :
    acResponseValidate f = true ∧
    acResponseValidate checksumAsCrcTestFrame = true := by
  constructor
  · rcases h with h1 | ⟨h2, h3⟩
    · have hv : Frame.validate f = true := by
        unfold Frame.validate
        rw [h1]
        exact beq_self_eq_true _
      unfold acResponseValidate
      rw [hv]
      rfl
    · have hc1 : (Frame.checksum (pyDropLast 2 (f.drop 1)) == (f.dropLast).getLastD 0) = true := by
        rw [h2]
        exact beq_self_eq_true _
      have hc2 : (crc8Calculate (pyDropLast 2 (f.drop 10)) == f.getLastD 0) = true := by
        rw [h3]
        exact beq_self_eq_true _
      unfold acResponseValidate
      rw [hc1, hc2]
      simp
  · decide

/-- Witness for C2: the test frame is accepted, via its canonical checksum. -/
theorem c2_two_form_validation_witness :
    acResponseValidate checksumAsCrcTestFrame = true :=
  (c2_two_form_validation checksumAsCrcTestFrame (Or.inl (by decide))).2

/-- C3 (amended): byte 1 of the frame built by `Frame.tobytes` equals the
total number of bytes in the frame (10-byte header plus payload plus one
checksum byte) — in particular a one-byte-payload query frame carries length
byte 12 — but frame decoding requires only that the trailing checksum match:
`Frame.validate` checks neither `frame[0] == 0xAA` nor
`len(frame) == frame[1]`. -/
theorem c3_length_byte_amended (dt ft : Nat) (p : List Nat)
    (hlen : p.length + 11 ≤ 255) :
    (Frame.tobytes dt ft p).getD 1 0 = (Frame.tobytes dt ft p).length ∧
    (Frame.tobytes dt ft p).length = p.length + 11 ∧
    QueryBasicCommand.tobytes.getD 1 0 = 12 ∧
    (∀ g : List Nat,
      (Frame.decode g).isSome = true ↔ Frame.validate g = true) := by
  refine ⟨?_, ?_, by decide, ?_⟩
  · simp [Frame.tobytes]
  · simp [Frame.tobytes]
  · intro g
    unfold Frame.decode
    by_cases hv : Frame.validate g = true
    · simp [hv]
    · simp [hv]

/-- Witness for C3 (amended) at the heat-pump basic query command: the
emitted frame is 12 bytes long and its length byte matches. -/
theorem c3_length_byte_amended_witness :
    (Frame.tobytes 0xC3 0x03 [0x01]).getD 1 0 = (Frame.tobytes 0xC3 0x03 [0x01]).length ∧
    (Frame.tobytes 0xC3 0x03 [0x01]).length = 12 :=
  ⟨(c3_length_byte_amended 0xC3 0x03 [0x01] (by decide)).1, by decide⟩

/-- Counterexample for C3 as stated: frame decoding does not require
`frame[0] == 0xAA` or `len(frame) == frame[1]`.  This 12-byte frame starts
with 0x00, carries length byte 7, yet `Frame.decode` accepts it because its
trailing checksum matches. -/
theorem c3_counterexample :
    Frame.decode
        [0x00, 0x07, 0xAC, 0x00, 0x00, 0x00, 0x00, 0x00, 0x00, 0x03, 0x01, 0x49] =
      some (0xAC, 0x03, [0x01]) ∧
    ([0x00, 0x07, 0xAC, 0x00, 0x00, 0x00, 0x00, 0x00, 0x00, 0x03, 0x01, 0x49] :
        List Nat).getD 0 0 ≠ 0xAA ∧
    ([0x00, 0x07, 0xAC, 0x00, 0x00, 0x00, 0x00, 0x00, 0x00, 0x03, 0x01, 0x49] :
        List Nat).length ≠
      ([0x00, 0x07, 0xAC, 0x00, 0x00, 0x00, 0x00, 0x00, 0x00, 0x03, 0x01, 0x49] :
        List Nat).getD 1 0 := by
  decide

/-- C7: for every integer target temperature `T` with `0 ≤ 2T + 80 ≤ 255`,
the commercial-cooler encoder produces the single byte `(2 × T) + 80`, and
both the control decoder and the state-response rule `byte/2 − 40` invert
it, so `decode(encode(T)) = T`. -/
theorem c7_target_temperature_roundtrip (t : Int)
    (h0 : 0 ≤ 2 * t + 80) (h1 : 2 * t + 80 ≤ 255) :
    ControlId.encode ControlId.TARGET_TEMPERATURE t = [(2 * t + 80).toNat] ∧
    ControlId.decode ControlId.TARGET_TEMPERATURE
        (ControlId.encode ControlId.TARGET_TEMPERATURE t) =
      PyVal.pyRat (t : ℚ) ∧
    (∀ payload : List Nat,
      payload.getD 0 0 = 0x01 → payload.getD 1 0 = 0xFE →
      payload.getD 11 0 = (2 * t + 80).toNat →
      QueryResponse.parseTargetTemperature payload = some (t : ℚ)) := by
  have hcast : (((2 * t + 80).toNat : ℚ)) = 2 * (t : ℚ) + 80 := by
    have h2 : (((2 * t + 80).toNat : Int)) = 2 * t + 80 := Int.toNat_of_nonneg h0
    calc ((2 * t + 80).toNat : ℚ) = (((2 * t + 80).toNat : Int) : ℚ) := by norm_cast
    _ = ((2 * t + 80 : Int) : ℚ) := by rw [h2]
    _ = 2 * (t : ℚ) + 80 := by push_cast; ring
  have hval : (((2 * t + 80).toNat : ℚ)) / 2 - 40 = (t : ℚ) := by
    rw [hcast]
    ring
  refine ⟨rfl, ?_, ?_⟩
  · simp [ControlId.encode, ControlId.decode, hval]
  · intro payload hp0 hp1 hp11
    unfold QueryResponse.parseTargetTemperature
    rw [if_pos ⟨hp0, hp1⟩, hp11, hval]

/-- Witness for C7 at T = 21 °C: the wire byte is 122 = 0x7A and both
decoders return 21. -/
theorem c7_target_temperature_roundtrip_witness :
    ControlId.decode ControlId.TARGET_TEMPERATURE
        (ControlId.encode ControlId.TARGET_TEMPERATURE 21) = PyVal.pyRat 21 ∧
    QueryResponse.parseTargetTemperature
        [0x01, 0xFE, 0, 0, 0, 0, 0, 0, 0, 0, 0, 122] = some 21 := by
  have h := c7_target_temperature_roundtrip 21 (by decide) (by decide)
  refine ⟨?_, ?_⟩
  · rw [h.2.1]
    norm_num
  · have := h.2.2 [0x01, 0xFE, 0, 0, 0, 0, 0, 0, 0, 0, 0, 122]
      (by decide) (by decide) (by decide)
    rw [this]
    norm_num

/-- C8: after setting exactly one of breeze-away / breeze-mild / breezeless
to true on an air-conditioner state with no pending dirty properties, the
other two flags are false and the dirty-property set contains exactly
`BREEZE_CONTROL` when that property is supported, otherwise exactly the
individual per-mode property — never both. -/
theorem c8_breeze_exclusive (s : ACState) (mode : BreezeMode)
    (hclean : s.updated_properties = []) :
    breezeFlag mode (ACState.setBreeze mode s) = true ∧
    (∀ m2 : BreezeMode, m2 ≠ mode →
      breezeFlag m2 (ACState.setBreeze mode s) = false) ∧
    (ACState.setBreeze mode s).updated_properties =
      [if s.supported_properties.contains PropertyId.BREEZE_CONTROL
        then PropertyId.BREEZE_CONTROL
        else breezeIndividualProperty mode] := by
  refine ⟨?_, ?_, ?_⟩
  · cases mode <;> simp [ACState.setBreeze, breezeFlag]
  · intro m2 hne
    cases mode <;> cases m2 <;>
      simp_all [ACState.setBreeze, breezeFlag]
  · cases mode <;>
      simp [ACState.setBreeze, hclean, List.insert, breezeIndividualProperty]

/-- Witness for C8: enabling breezeless on a fresh device that supports the
individual breezeless property marks exactly that property dirty. -/
theorem c8_breeze_exclusive_witness :
    breezeFlag BreezeMode.breezeless
        (ACState.setBreeze BreezeMode.breezeless
          ⟨false, false, false, [PropertyId.BREEZELESS], []⟩) = true ∧
    (ACState.setBreeze BreezeMode.breezeless
        ⟨false, false, false, [PropertyId.BREEZELESS], []⟩).updated_properties =
      [PropertyId.BREEZELESS] := by
  have h := c8_breeze_exclusive
    ⟨false, false, false, [PropertyId.BREEZELESS], []⟩ BreezeMode.breezeless rfl
  exact ⟨h.1, h.2.2.trans (by decide)⟩

/-- C5: constructing a response from a valid heat-pump REPORT frame of
subtype 0x04 yields a POWER4 report whose `electric_power` is the big-endian
u32 at payload bytes 2..5, `thermal_power` the big-endian u32 at 6..9,
`outdoor_air_temperature` the signed byte 10, `water_tank_temperature`
byte 13 and `voltage` byte 156 (payload = `frame[10:-1]`). -/
theorem c5_power4_fields (frame : List Nat)
    (hv : Frame.validate frame = true)
    (h9 : frame.getD 9 0 = FrameType.REPORT)
    (h10 : frame.getD 10 0 = ReportType.REPORT_POWER4)
    (hlen : 157 ≤ ((frame.drop 10).dropLast).length) :
    C3Response.construct frame =
      some (C3Response.power4
        { heat_active := (((frame.drop 10).dropLast).getD 1 0 &&& 0x01) != 0
          cool_active := (((frame.drop 10).dropLast).getD 1 0 &&& 0x02) != 0
          dhw_active := (((frame.drop 10).dropLast).getD 1 0 &&& 0x04) != 0
          tbh_active := (((frame.drop 10).dropLast).getD 1 0 &&& 0x08) != 0
          electric_power := be32 ((frame.drop 10).dropLast) 2
          thermal_power := be32 ((frame.drop 10).dropLast) 6
          outdoor_air_temperature := signedByte (((frame.drop 10).dropLast).getD 10 0)
          zone1_target_temperature := ((frame.drop 10).dropLast).getD 11 0
          zone2_target_temperature := ((frame.drop 10).dropLast).getD 12 0
          water_tank_temperature := ((frame.drop 10).dropLast).getD 13 0
          online := (((frame.drop 10).dropLast).getD 17 0 &&& 0x01) != 0
          voltage := ((frame.drop 10).dropLast).getD 156 0 }) := by
  have hfl : ¬ frame.length < 11 := by
    have h := hlen
    simp only [List.length_dropLast, List.length_drop] at h
    omega
  have hpl : ¬ ((frame.drop 10).dropLast).length < 157 := by omega
  simp only [C3Response.construct, hv, Bool.not_true, h9, h10,
    FrameType.REPORT, FrameType.QUERY, ReportType.REPORT_POWER4,
    QueryType.QUERY_BASIC, QueryType.QUERY_UNIT_PARAMETERS]
  norm_num
  refine ⟨by omega, ?_⟩
  rw [ReportPower4Response.parse, if_neg hpl]
  norm_num

set_option maxRecDepth 40000

/-- Witness for C5 at the captured POWER4 report frame, with the decoded
values of spec scenario 6. -/
theorem c5_power4_fields_witness :
    C3Response.construct power4TestFrame = some (C3Response.power4 power4TestData) ∧
    power4TestData.electric_power = 4860 ∧
    power4TestData.thermal_power = 9130 ∧
    power4TestData.outdoor_air_temperature = 11 ∧
    power4TestData.water_tank_temperature = 41 ∧
    power4TestData.voltage = 225 := by
  refine ⟨?_, by decide, by decide, by decide, by decide, by decide⟩
  have h := c5_power4_fields power4TestFrame (by decide) (by decide) (by decide) (by decide)
  rw [h]
  decide

/-- C6: for every heat-pump basic-query response, the decoded
`tank_temperature` is `None` exactly when payload byte 22 equals 0xFF, and
otherwise equals the value of that byte. -/
theorem c6_tank_temperature (p : List Nat)
    (h25 : 25 ≤ p.length) (h26 : p.length ≠ 26) :
    ((QueryBasicResponse.parse p).bind (fun a => getattr a "tank_temperature") =
        some PyVal.pyNone ↔ p.getD 22 0 = 0xFF) ∧
    (p.getD 22 0 ≠ 0xFF →
      (QueryBasicResponse.parse p).bind (fun a => getattr a "tank_temperature") =
        some (PyVal.pyInt (p.getD 22 0))) := by
  have hg1 : ¬ p.length < 25 := by omega
  have hg2 : ¬ (p.length > 25 ∧ p.length < 27) := by omega
  simp only [QueryBasicResponse.parse]
  rw [if_neg hg1, if_neg hg2]
  by_cases h22 : p.getD 22 0 = 0xFF
  · simp [getattr, h22]
  · simp [getattr, h22]

/-- Witness for C6 at the captured basic-query response: byte 22 is 0x22, so
the tank temperature decodes to 34 °C. -/
theorem c6_tank_temperature_witness :
    (QueryBasicResponse.parse basicPayload).bind
        (fun a => getattr a "tank_temperature") = some (PyVal.pyInt 0x22) := by
  have h := (c6_tank_temperature basicPayload (by decide) (by decide)).2 (by decide)
  exact h.trans (by decide)

/-- C9: for every heat-pump basic-query response, the decoded `tbh_state`
and `fastdhw_state` are both computed as mask 0x40 of payload byte 1, and
are therefore always equal to each other. -/
theorem c9_tbh_equals_fastdhw (p : List Nat)
    (h25 : 25 ≤ p.length) (h26 : p.length ≠ 26) :
    (QueryBasicResponse.parse p).bind (fun a => getattr a "tbh_state") =
      (QueryBasicResponse.parse p).bind (fun a => getattr a "fastdhw_state") ∧
    (QueryBasicResponse.parse p).bind (fun a => getattr a "tbh_state") =
      some (bitBool (p.getD 1 0) 0x40) := by
  have hg1 : ¬ p.length < 25 := by omega
  have hg2 : ¬ (p.length > 25 ∧ p.length < 27) := by omega
  simp only [QueryBasicResponse.parse]
  rw [if_neg hg1, if_neg hg2]
  constructor
  · simp [getattr]
  · simp [getattr]

/-- Witness for C9 at the captured basic-query response: byte 1 is 0x05, so
both states decode to false. -/
theorem c9_tbh_equals_fastdhw_witness :
    (QueryBasicResponse.parse basicPayload).bind (fun a => getattr a "tbh_state") =
      (QueryBasicResponse.parse basicPayload).bind (fun a => getattr a "fastdhw_state") ∧
    (QueryBasicResponse.parse basicPayload).bind (fun a => getattr a "tbh_state") =
      some (PyVal.pyBool false) := by
  have h := c9_tbh_equals_fastdhw basicPayload (by decide) (by decide)
  exact ⟨h.1, h.2.trans (by decide)⟩

/-- C10 (amended): for every successfully parsed heat-pump basic-query
response, `HeatPump._update_state` raises `AttributeError` before
completing — it reads `zone1_temp_type` via `getattr` but the parser only
defines `zone1_temperature_type` — so zone temperature types, terminal
types, target temperatures and bounds, and the DHW / room / tank fields are
never transferred into the device object; however the zone-1 power and
curve states (with run mode and the heat/cool enables) are assigned before
the exception propagates. -/
theorem c10_update_state_attribute_error (p : List Nat)
    (attrs : List (String × PyVal)) (s : HeatPumpState)
    (h : QueryBasicResponse.parse p = some attrs) :
    (HeatPump.updateStateBasic attrs s).2 = some "zone1_temp_type" ∧
    (HeatPump.updateStateBasic attrs s).1.zone_1.temperature_type =
      s.zone_1.temperature_type ∧
    (HeatPump.updateStateBasic attrs s).1.zone_1.terminal_type =
      s.zone_1.terminal_type ∧
    (HeatPump.updateStateBasic attrs s).1.zone_1.target_temperature =
      s.zone_1.target_temperature ∧
    (HeatPump.updateStateBasic attrs s).1.zone_1.min_heat_temperature =
      s.zone_1.min_heat_temperature ∧
    (HeatPump.updateStateBasic attrs s).1.zone_1.max_heat_temperature =
      s.zone_1.max_heat_temperature ∧
    (HeatPump.updateStateBasic attrs s).1.zone_1.min_cool_temperature =
      s.zone_1.min_cool_temperature ∧
    (HeatPump.updateStateBasic attrs s).1.zone_1.max_cool_temperature =
      s.zone_1.max_cool_temperature ∧
    (HeatPump.updateStateBasic attrs s).1.dhw_target_temperature =
      s.dhw_target_temperature ∧
    (HeatPump.updateStateBasic attrs s).1.room_target_temperature =
      s.room_target_temperature ∧
    (HeatPump.updateStateBasic attrs s).1.tank_temperature =
      s.tank_temperature ∧
    (HeatPump.updateStateBasic attrs s).1.zone_1.power_state =
      bitBool (p.getD 1 0) 0x01 ∧
    (HeatPump.updateStateBasic attrs s).1.zone_1.curve_state =
      bitBool (p.getD 1 0) 0x08 := by
  have hg1 : ¬ p.length < 25 := by
    intro hc
    simp only [QueryBasicResponse.parse, if_pos hc] at h
    exact Option.noConfusion h
  have hg2 : ¬ (p.length > 25 ∧ p.length < 27) := by
    intro hc
    simp only [QueryBasicResponse.parse, if_neg hg1, if_pos hc] at h
    exact Option.noConfusion h
  simp only [QueryBasicResponse.parse, if_neg hg1, if_neg hg2] at h
  injection h with he
  subst he
  by_cases hl : p.length > 25 <;>
  cases hsz : s.zone_2 <;>
  simp [HeatPump.updateStateBasic, updateZoneFromAttrs, getattr,
    hl, hsz, bitBool, pyTruthy] <;>
  (try (split <;> simp))

/-- Counterexample for C10 as stated: at the captured basic-query response
and a freshly initialised heat pump, the update does raise on
`zone1_temp_type`, but the zone-1 power state HAS been transferred into the
device object before the exception (init holds `false`, the response bit is
set), so "no basic-query state is ever transferred" is too strong. -/
theorem c10_counterexample :
    (HeatPump.updateStateBasic basicAttrs HeatPumpState.init).2 =
      some "zone1_temp_type" ∧
    (HeatPump.updateStateBasic basicAttrs HeatPumpState.init).1.zone_1.power_state =
      PyVal.pyBool true ∧
    HeatPumpState.init.zone_1.power_state = PyVal.pyBool false := by
  decide

/-- Witness for C10 (amended) at the captured basic-query response and a
fresh device: the update aborts on `zone1_temp_type` and the tank
temperature is left untouched. -/
theorem c10_update_state_attribute_error_witness :
    (HeatPump.updateStateBasic basicAttrs HeatPumpState.init).2 =
      some "zone1_temp_type" ∧
    (HeatPump.updateStateBasic basicAttrs HeatPumpState.init).1.tank_temperature =
      HeatPumpState.init.tank_temperature := by
  have hl1 : ¬ basicPayload.length < 25 := by decide
  have hl2 : ¬ (basicPayload.length > 25 ∧ basicPayload.length < 27) := by decide
  have hp : QueryBasicResponse.parse basicPayload = some basicAttrs := by
    simp only [basicAttrs, QueryBasicResponse.parse, if_neg hl1, if_neg hl2]
    rfl
  have h := c10_update_state_attribute_error basicPayload basicAttrs
    HeatPumpState.init hp
  exact ⟨h.1, h.2.2.2.2.2.2.2.2.2.2.1⟩

/-- C4 (amended): for every V2 or V3 discovery response whose decrypted body
reports an IP different from the datagram source IP,
`Discover._get_device_info` logs a warning — but the device-info dictionary
it returns carries the REPORTED IP from the decrypted body, not the source
IP. -/
theorem c4_reported_ip_amended (decrypt : List Nat → Option (List Nat))
    (ip : String) (version : Nat) (data : List Nat) (dec : List Nat)
    (d : DeviceInfo) (w : Bool)
    (hdec : decrypt (pyDropLast 16
      ((if version = 3 then pyDropLast 16 (data.drop 8) else data).drop 40)) =
        some dec)
    (hinfo : Discover.getDeviceInfoV23 decrypt ip version data =
      (InfoResult.info d, w))
    (hne : ipv4String dec ≠ ip) :
    w = true ∧ d.ip = ipv4String dec ∧ d.ip ≠ ip := by
  simp only [Discover.getDeviceInfoV23, hdec] at hinfo
  repeat' split at hinfo
  all_goals simp at hinfo
  all_goals
    obtain ⟨hd, hw⟩ := hinfo
    subst hd
    refine ⟨?_, rfl, hne⟩
    rw [← hw]
    exact bne_iff_ne.mpr hne

/-- Counterexample for C4 as stated: for a discovery response whose
decrypted body reports 10.0.0.2 while the datagram came from 10.0.0.1, the
warning is logged (second component `true`) but the returned device
dictionary carries the reported IP 10.0.0.2, not the source IP. -/
theorem c4_counterexample :
    (Discover.getDeviceInfoV23 (fun _ => some mismatchBody)
        "10.0.0.1" 2 mismatchDatagram).1 = InfoResult.info mismatchInfo ∧
    (Discover.getDeviceInfoV23 (fun _ => some mismatchBody)
        "10.0.0.1" 2 mismatchDatagram).2 = true ∧
    mismatchInfo.ip = "10.0.0.2" ∧
    ("10.0.0.2" : String) ≠ "10.0.0.1" := by
  decide

/-- Witness for C4 (amended) at the mismatching discovery body: the returned
dictionary carries the reported IP, which differs from the source. -/
theorem c4_reported_ip_amended_witness :
    mismatchInfo.ip = ipv4String mismatchBody ∧ mismatchInfo.ip ≠ "10.0.0.1" := by
  have h := c4_reported_ip_amended (fun _ => some mismatchBody) "10.0.0.1" 2
    mismatchDatagram mismatchBody mismatchInfo true rfl (by decide) (by decide)
  exact ⟨h.2.1, h.2.2⟩
